import Mathlib

/-
Verification development for the art-events acquisition-and-persistence
pipeline (src/models/models.py, src/models/db.py, src/tools/database_tools.py,
src/tools/web_tools.py).

The relational store is embedded as explicit state passing over a `DB` record
holding the four tables (urls, exhibitions, entry_fees, prizes) together with
the next autoincrement id of each table.  SQLAlchemy sessions and the
per-operation transaction of `AsyncDatabaseManager.get_transaction` become the
`Except` monad: a returned `Except.ok (r, db')` is a committed transaction with
result `r` and new state `db'`, while `Except.error e` is an exception escaping
the context manager, which rolls the transaction back, so the caller keeps its
original `DB` value (made explicit by `runDB`).

Python `Decimal` values are embedded as `ℚ` (exact decimal arithmetic, exact
comparisons), `datetime.date` as a `PyDate` triple ordered lexicographically
(the comparison used by `date.__gt__`), and SQL timestamps as `Nat` instants
supplied by a `now` parameter standing for `func.now()`.

`database_tools.py` defines each tool twice, as a sync and an async variant
with identical validation logic; the imported `SyncDatabaseManager` is not in
the repository, so the manager semantics are taken from `AsyncDatabaseManager`
in src/models/db.py (the module `database_tools.py` actually imports from).
-/

set_option autoImplicit false

namespace ArtEvents

/-- A calendar date as used by `datetime.date`: comparisons on valid dates are
lexicographic on (year, month, day).  Parsing of `YYYY-MM-DD` strings by
`date.fromisoformat` is elided: the embedding receives already-parsed dates. -/
structure PyDate where
  year : Nat
  month : Nat
  day : Nat
deriving Repr, DecidableEq

/-- Strict `<` on dates, mirroring Python `date` ordering. -/
def PyDate.lt (a b : PyDate) : Bool :=
  decide (a.year < b.year) ||
    (decide (a.year = b.year) &&
      (decide (a.month < b.month) ||
        (decide (a.month = b.month) && decide (a.day < b.day))))

/-- Row of the `urls` table (class `Url` in src/models/models.py). -/
structure UrlRow where
  id : Nat
  raw_title : Option String
  raw_date : Option String
  raw_location : Option String
  raw_description : Option String
  url : String
  first_seen : Nat
  updated_at : Nat
deriving Repr, DecidableEq

/-- Row of the `exhibitions` table (class `Exhibition` in src/models/models.py). -/
structure ExhibitionRow where
  id : Nat
  title : String
  date_start : PyDate
  date_end : PyDate
  venue : String
  location : String
  county : Option String
  description : Option String
  url_id : Nat
  created_at : Nat
  updated_at : Nat
deriving Repr, DecidableEq

/-- Row of the `entry_fees` table (class `EntryFee` in src/models/models.py). -/
structure EntryFeeRow where
  id : Nat
  exhibition_id : Nat
  fee_type : String
  number_entries : Option Int
  fee_amount : Option ℚ
  flat_rate : Option ℚ
  commission_percent : Option ℚ
deriving Repr, DecidableEq

/-- Row of the `prizes` table (class `Prize` in src/models/models.py). -/
structure PrizeRow where
  id : Nat
  exhibition_id : Nat
  prize_rank : Option Int
  prize_amount : Option ℚ
  prize_type : Option String
  prize_description : Option String
  created_at : Nat
  updated_at : Nat
deriving Repr, DecidableEq

/-- The whole store: the four tables plus the autoincrement counters. -/
structure DB where
  urls : List UrlRow
  exhibitions : List ExhibitionRow
  entry_fees : List EntryFeeRow
  prizes : List PrizeRow
  next_url_id : Nat
  next_exhibition_id : Nat
  next_fee_id : Nat
  next_prize_id : Nat
deriving Repr, DecidableEq

/-- A fresh store, ids starting at 1 as in SQLite. -/
def emptyDB : DB :=
  { urls := [], exhibitions := [], entry_fees := [], prizes := [],
    next_url_id := 1, next_exhibition_id := 1, next_fee_id := 1, next_prize_id := 1 }

/-- Typed errors raised by the store operations: `ValueError` validation
failures raised by the tool wrappers, and SQLAlchemy
`MultipleResultsFound` raised by `scalar_one_or_none`. -/
inductive DbError where
  | validationError (msg : String)
  | multipleResultsFound
deriving Repr, DecidableEq

/-- Net effect of a transactional call on the store: commit the new state on
success, roll back to the original state on an exception
(`AsyncDatabaseManager.get_transaction`). -/
def runDB {α : Type} (r : Except DbError (α × DB)) (db : DB) : DB :=
  match r with
  | .ok (_, db') => db'
  | .error _ => db

/-- SQLAlchemy `Result.scalar_one_or_none`: none for an empty result, the row
for a singleton, `MultipleResultsFound` otherwise. -/
def scalar_one_or_none {α : Type} : List α → Except DbError (Option α)
  | [] => .ok none
  | [a] => .ok (some a)
  | _ => .error .multipleResultsFound

/-- The WHERE clause of `AsyncDatabaseManager.add_url`:
`Url.url == kwargs.get('url')`. -/
def urlMatches (url : String) (r : UrlRow) : Bool := r.url == url

/-- The WHERE clause of `AsyncDatabaseManager.add_entry_fee`:
`EntryFee.exhibition_id == ... and EntryFee.number_entries == ...`. -/
def feeKeyMatches (exhibition_id : Nat) (number_entries : Option Int) (r : EntryFeeRow) : Bool :=
  r.exhibition_id == exhibition_id && r.number_entries == number_entries

namespace DbMgr

/-- `AsyncDatabaseManager.add_url` (src/models/db.py lines 92-106): look up the
URL, return the existing row untouched if present, otherwise insert a new row
whose timestamps are the server defaults `now`. -/
def add_url (db : DB) (url : String)
    (raw_title raw_date raw_location raw_description : Option String) (now : Nat) :
    Except DbError (UrlRow × DB) :=
  match scalar_one_or_none (db.urls.filter (urlMatches url)) with
  | .error e => .error e
  | .ok (some existing) => .ok (existing, db)
  | .ok none =>
    let row : UrlRow :=
      { id := db.next_url_id, raw_title := raw_title, raw_date := raw_date,
        raw_location := raw_location, raw_description := raw_description,
        url := url, first_seen := now, updated_at := now }
    .ok (row, { db with urls := db.urls ++ [row], next_url_id := db.next_url_id + 1 })

/-- `AsyncDatabaseManager.add_exhibition` (src/models/db.py lines 108-114):
plain insert, no validation at this layer. -/
def add_exhibition (db : DB) (title : String) (date_start date_end : PyDate)
    (venue location : String) (county : Option String) (url_id : Nat)
    (description : Option String) (now : Nat) : ExhibitionRow × DB :=
  let row : ExhibitionRow :=
    { id := db.next_exhibition_id, title := title, date_start := date_start,
      date_end := date_end, venue := venue, location := location, county := county,
      description := description, url_id := url_id, created_at := now, updated_at := now }
  (row, { db with exhibitions := db.exhibitions ++ [row],
                  next_exhibition_id := db.next_exhibition_id + 1 })

/-- `AsyncDatabaseManager.add_entry_fee` (src/models/db.py lines 116-135): look
up by (exhibition_id, number_entries), return the existing row untouched if
present, otherwise insert (the `fee_type` column keeps its model
default "tier"). -/
def add_entry_fee (db : DB) (exhibition_id : Nat) (number_entries : Option Int)
    (fee_amount flat_rate commission_percent : Option ℚ) :
    Except DbError (EntryFeeRow × DB) :=
  match scalar_one_or_none (db.entry_fees.filter (feeKeyMatches exhibition_id number_entries)) with
  | .error e => .error e
  | .ok (some existing) => .ok (existing, db)
  | .ok none =>
    let row : EntryFeeRow :=
      { id := db.next_fee_id, exhibition_id := exhibition_id, fee_type := "tier",
        number_entries := number_entries, fee_amount := fee_amount,
        flat_rate := flat_rate, commission_percent := commission_percent }
    .ok (row, { db with entry_fees := db.entry_fees ++ [row],
                        next_fee_id := db.next_fee_id + 1 })

/-- `AsyncDatabaseManager.add_prize` (src/models/db.py lines 137-143): plain
insert, no validation at this layer. -/
def add_prize (db : DB) (exhibition_id : Nat) (prize_rank : Option Int)
    (prize_amount : Option ℚ) (prize_type prize_description : Option String)
    (now : Nat) : PrizeRow × DB :=
  let row : PrizeRow :=
    { id := db.next_prize_id, exhibition_id := exhibition_id, prize_rank := prize_rank,
      prize_amount := prize_amount, prize_type := prize_type,
      prize_description := prize_description, created_at := now, updated_at := now }
  (row, { db with prizes := db.prizes ++ [row], next_prize_id := db.next_prize_id + 1 })

end DbMgr

/-- A record handed to `bulk_insert_exhibitions`: a Python dict whose keys may
be absent.  A `none` in one of the six required fields models a missing key
(`if field not in data`), matching the validation in src/models/db.py
lines 193-198. -/
structure ExhibitionData where
  title : Option String
  date_start : Option PyDate
  date_end : Option PyDate
  venue : Option String
  location : Option String
  url_id : Option Nat
  county : Option String
  description : Option String
deriving Repr, DecidableEq

/-- All six required fields of a bulk-insert record are present. -/
def hasAllRequired (d : ExhibitionData) : Bool :=
  d.title.isSome && d.date_start.isSome && d.date_end.isSome &&
    d.venue.isSome && d.location.isSome && d.url_id.isSome

namespace DbMgr

/-- The per-record loop body of `bulk_insert_exhibitions`: check the required
fields in source order, raising `ValueError(f"Missing required field: ...")` on
the first absent one, and otherwise build the `Exhibition` rows with
consecutive flush-assigned ids. -/
def buildExhibitions (nextId : Nat) (now : Nat) :
    List ExhibitionData → Except DbError (List ExhibitionRow)
  | [] => .ok []
  | d :: rest =>
    match d.title with
    | none => .error (.validationError "Missing required field: title")
    | some t =>
    match d.date_start with
    | none => .error (.validationError "Missing required field: date_start")
    | some ds =>
    match d.date_end with
    | none => .error (.validationError "Missing required field: date_end")
    | some de =>
    match d.venue with
    | none => .error (.validationError "Missing required field: venue")
    | some v =>
    match d.location with
    | none => .error (.validationError "Missing required field: location")
    | some loc =>
    match d.url_id with
    | none => .error (.validationError "Missing required field: url_id")
    | some u =>
      match buildExhibitions (nextId + 1) now rest with
      | .error e => .error e
      | .ok rows =>
        .ok ({ id := nextId, title := t, date_start := ds, date_end := de,
               venue := v, location := loc, county := d.county,
               description := d.description, url_id := u,
               created_at := now, updated_at := now } :: rows)

/-- `AsyncDatabaseManager.bulk_insert_exhibitions` (src/models/db.py lines
175-206): an empty list short-circuits to `[]`; otherwise every record is
validated and inserted inside one transaction, so a `ValueError` anywhere in
the loop rolls the whole batch back. -/
def bulk_insert_exhibitions (db : DB) (data : List ExhibitionData) (now : Nat) :
    Except DbError (List ExhibitionRow × DB) :=
  if data.isEmpty then .ok ([], db)
  else
    match buildExhibitions db.next_exhibition_id now data with
    | .error e => .error e
    | .ok rows =>
      .ok (rows, { db with exhibitions := db.exhibitions ++ rows,
                           next_exhibition_id := db.next_exhibition_id + rows.length })

end DbMgr

namespace Tools

/-- Tool `add_url` (src/tools/database_tools.py lines 396-424, async variant
lines 35-66): delegate to the manager and return the primary-key id. -/
def add_url (db : DB) (url : String)
    (raw_title raw_date raw_location raw_description : Option String) (now : Nat) :
    Except DbError (Nat × DB) :=
  match DbMgr.add_url db url raw_title raw_date raw_location raw_description now with
  | .ok (r, db') => .ok (r.id, db')
  | .error e => .error e

/-- Tool `add_exhibition` (src/tools/database_tools.py lines 428-479, async
variant lines 70-124): parse the two dates, raise `ValueError` when the start
date is after the end date, otherwise insert via the manager. -/
def add_exhibition (db : DB) (title : String) (date_start date_end : PyDate)
    (venue location : String) (county : Option String) (url_id : Nat)
    (description : Option String) (now : Nat) : Except DbError (Nat × DB) :=
  if PyDate.lt date_end date_start then
    .error (.validationError "Invalid date format: Start date cannot be after end date")
  else
    let (r, db') := DbMgr.add_exhibition db title date_start date_end venue location
      county url_id description now
    .ok (r.id, db')

/-- Tool `add_entry_fee` (src/tools/database_tools.py lines 483-528, async
variant lines 130-176): validate the three numeric fields before touching the
store, then delegate.  The `Decimal(...)` parses are elided: the embedding
receives the parsed values, with `none` for an absent or empty string. -/
def add_entry_fee (db : DB) (exhibition_id : Nat) (number_entries : Int)
    (fee_amount : ℚ) (flat_rate commission_percent : Option ℚ) :
    Except DbError (Nat × DB) :=
  if fee_amount < 0 then
    .error (.validationError "Invalid numeric value: Fee amount cannot be negative")
  else if (match flat_rate with | some f => decide (f < 0) | none => false) then
    .error (.validationError "Invalid numeric value: Flat rate cannot be negative")
  else if (match commission_percent with
           | some c => decide (c < 0) || decide (100 < c)
           | none => false) then
    .error (.validationError "Invalid numeric value: Commission percent must be between 0 and 100")
  else
    match DbMgr.add_entry_fee db exhibition_id (some number_entries) (some fee_amount)
        flat_rate commission_percent with
    | .ok (r, db') => .ok (r.id, db')
    | .error e => .error e

/-- Tool `add_prize` (src/tools/database_tools.py lines 532-574, async variant
lines 182-225): validate the optional amount, then the optional rank, before
touching the store. -/
def add_prize (db : DB) (exhibition_id : Nat) (prize_rank : Option Int)
    (prize_amount : Option ℚ) (prize_type prize_description : Option String)
    (now : Nat) : Except DbError (Nat × DB) :=
  if (match prize_amount with | some a => decide (a < 0) | none => false) then
    .error (.validationError "Invalid prize amount: Prize amount cannot be negative")
  else if (match prize_rank with | some k => decide (k < 1) | none => false) then
    .error (.validationError "Prize rank must be positive")
  else
    let (r, db') := DbMgr.add_prize db exhibition_id prize_rank prize_amount
      prize_type prize_description now
    .ok (r.id, db')

end Tools

/-- Number of rows of the `urls` table carrying a given URL. -/
def urlCount (db : DB) (url : String) : Nat :=
  (db.urls.filter (urlMatches url)).length

/-- Number of rows of the `entry_fees` table carrying a given
(exhibition, entry count) key. -/
def feePairCount (db : DB) (exhibition_id : Nat) (number_entries : Option Int) : Nat :=
  (db.entry_fees.filter (feeKeyMatches exhibition_id number_entries)).length

/-- The result of a store call is a `ValueError`-style validation failure. -/
def isValidationError {α : Type} (r : Except DbError α) : Prop :=
  ∃ m, r = Except.error (DbError.validationError m)

/-
Text processing for src/tools/web_tools.py.  Text is handled as `List Char`
(Python `str` is a sequence of code points) with `String` wrappers at the
function boundaries.  Recursions that consume a non-constant number of
characters per step take an explicit fuel argument, always called with
`length + 1`, which is enough because every step consumes at least one
character; this keeps every definition structurally recursive and hence
evaluable by `decide`/`rfl`.
-/

/-- Python `\s` / `str.strip` whitespace (the ASCII part, which is all the
embedded regexes are applied to). -/
def isPySpace (c : Char) : Bool :=
  c == ' ' || c == '\t' || c == '\n' || c == '\r' || c == '\x0b' || c == '\x0c'

/-- Python `str.strip()`: drop whitespace from both ends. -/
def pyStrip (s : List Char) : List Char :=
  ((s.dropWhile isPySpace).reverse.dropWhile isPySpace).reverse

/-- Lower-case every character (`str.lower`, ASCII part). -/
def lowerChars (s : List Char) : List Char := s.map Char.toLower

/-- The haystack starts with the needle. -/
def listStartsWith (needle hay : List Char) : Bool :=
  hay.take needle.length == needle

/-- The haystack starts with the needle, case-insensitively (for regexes
compiled with `re.IGNORECASE`). -/
def listStartsWithCI (needle hay : List Char) : Bool :=
  lowerChars (hay.take needle.length) == lowerChars needle

/-- Python `needle in hay` substring test. -/
def containsSub (needle hay : List Char) : Bool :=
  hay.tails.any (fun t => listStartsWith needle t)

/-- Index of the first case-insensitive occurrence of `needle`. -/
def findCIAux (needle : List Char) : Nat → List Char → Nat → Option Nat
  | 0, _, _ => none
  | _, [], _ => none
  | fuel + 1, c :: rest, i =>
    if listStartsWithCI needle (c :: rest) then some i
    else findCIAux needle fuel rest (i + 1)

/-- Index of the first case-insensitive occurrence of `needle` in `hay`. -/
def findCI (needle hay : List Char) : Option Nat :=
  findCIAux needle (hay.length + 1) hay 0

/-- Split on every occurrence of a literal separator, keeping empty pieces,
as `re.split` on an escaped literal / `str.split(sep)` do. -/
def splitOnLitAux (sep : List Char) : Nat → List Char → List Char → List (List Char)
  | 0, s, acc => [acc.reverse ++ s]
  | _, [], acc => [acc.reverse]
  | fuel + 1, c :: rest, acc =>
    if listStartsWith sep (c :: rest) then
      acc.reverse :: splitOnLitAux sep fuel ((c :: rest).drop sep.length) []
    else
      splitOnLitAux sep fuel rest (c :: acc)

/-- Split on every occurrence of a literal (nonempty) separator. -/
def splitOnLit (sep s : List Char) : List (List Char) :=
  splitOnLitAux sep (s.length + 1) s []

/-- Largest index of a newline inside a character run. -/
def lastNewlineIdx (l : List Char) : Option Nat :=
  ((l.enum.filter (fun p => p.2 == '\n')).getLast?).map (fun p => p.1)

/-- Length of the match of `\n\s*\n` anchored at the head of `s`, if any: a
newline, then the greedy `\s*` backtracks until the next character is again a
newline, i.e. the match extends to the last newline of the whitespace run that
follows the first one. -/
def paraMatchLen (s : List Char) : Option Nat :=
  match s with
  | '\n' :: rest =>
    match lastNewlineIdx (rest.takeWhile isPySpace) with
    | some k => some (k + 2)
    | none => none
  | _ => none

/-- The scan of `re.split(r'\n\s*\n', content)`: leftmost non-overlapping
matches become the cut points. -/
def splitParaAux : Nat → List Char → List Char → List (List Char)
  | 0, s, acc => [acc.reverse ++ s]
  | _, [], acc => [acc.reverse]
  | fuel + 1, c :: rest, acc =>
    match paraMatchLen (c :: rest) with
    | some len => acc.reverse :: splitParaAux fuel ((c :: rest).drop len) []
    | none => splitParaAux fuel rest (c :: acc)

/-- `re.split(r'\n\s*\n', content)`. -/
def splitPara (s : List Char) : List (List Char) :=
  splitParaAux (s.length + 1) s []

/-- The sentence-split post-processing of `reduce_content_to_relevant_sections`
(src/tools/web_tools.py line 605): add the period back to every piece except
the last. -/
def addPeriodsBack : List (List Char) → List (List Char)
  | [] => []
  | [s] => [s]
  | s :: rest => (s ++ ['.']) :: addPeriodsBack rest

/-- The segmenting cascade of `reduce_content_to_relevant_sections`
(src/tools/web_tools.py lines 596-611): paragraphs if a blank line occurs,
else sentences, else lines, else the whole text as one segment. -/
def sectionsOf (content : String) : List (List Char) :=
  let cs := content.data
  if containsSub ['\n', '\n'] cs then splitPara cs
  else if containsSub ['.', ' '] cs then addPeriodsBack (splitOnLit ['.', ' '] cs)
  else if containsSub ['\n'] cs then splitOnLit ['\n'] cs
  else [cs]

/-- The fixed fallback keyword list of `reduce_content_to_relevant_sections`
(src/tools/web_tools.py lines 617-621), used when the caller passes none. -/
def default_keywords : List String :=
  ["exhibition", "entry fee", "submission", "deadline", "prize", "award",
   "competition", "open call", "gallery", "artist", "artwork", "entry",
   "cost", "fee", "commission", "apply", "deadline", "closes", "opens"]

/-- The keyword list actually used: the default list when none are supplied. -/
def effKeywords (keywords : List String) : List String :=
  if keywords.isEmpty then default_keywords else keywords

/-- `re.search('|'.join(re.escape(k.lower()) for k in keywords), section.lower())`:
some lowered keyword occurs in the lowered section. -/
def sectionMatches (keywords : List String) (sec : List Char) : Bool :=
  keywords.any (fun k => containsSub (lowerChars k.data) (lowerChars sec))

/-- The filtering loop of `reduce_content_to_relevant_sections`
(src/tools/web_tools.py lines 626-633): strip each section, skip empty ones,
keep the stripped section when it matches a keyword. -/
def relevantSections (keywords : List String) : List (List Char) → List (List Char)
  | [] => []
  | sec :: rest =>
    let s := pyStrip sec
    if s.isEmpty then relevantSections keywords rest
    else if sectionMatches keywords s then s :: relevantSections keywords rest
    else relevantSections keywords rest

/-- `sep.join(pieces)`. -/
def joinWith (sep : List Char) : List (List Char) → List Char
  | [] => []
  | [s] => s
  | s :: rest => s ++ sep ++ joinWith sep rest

/-- The join step of `reduce_content_to_relevant_sections` (src/tools/web_tools.py
lines 640-645): a space when the content was sentence-like, else a blank line.
The test literally re-checks the content, not the splitting method used. -/
def joinSections (content : String) (pieces : List (List Char)) : List Char :=
  if !(sectionsOf content).isEmpty && containsSub ['.', ' '] content.data then
    joinWith [' '] pieces
  else
    joinWith ['\n', '\n'] pieces

/-- The size cap of `reduce_content_to_relevant_sections` (src/tools/web_tools.py
lines 648-649): 5000 characters plus an explicit truncation marker. -/
def truncateContent (s : List Char) : List Char :=
  if 5000 < s.length then
    s.take 5000 ++ "\n... [CONTENT TRUNCATED FOR TOKEN EFFICIENCY]".data
  else s

/-- Tool `reduce_content_to_relevant_sections` (src/tools/web_tools.py lines
580-651): segment the content, keep keyword-matching segments, fall back to the
first three segments when none match, join, and cap the size. -/
def reduce_content_to_relevant_sections (content : String) (keywords : List String) : String :=
  let sections := sectionsOf content
  let kws := effKeywords keywords
  let relevant := relevantSections kws sections
  let chosen := if relevant.isEmpty then sections.take 3 else relevant
  String.mk (truncateContent (joinSections content chosen))

/-
Backtracking regex matching for the fixed pattern lists of
`extract_prices_with_regex` and `extract_dates_with_regex`.  A `Matcher` maps
an input suffix to the list of possible remainders in the preference order of
Python's backtracking engine (greedy pieces produce longer consumptions
first); the head of the list at the leftmost matching position is what
`re.finditer` reports.  Patterns are composed from the same pieces as the
source regexes; all literals are matched case-insensitively because both
pattern lists are compiled with `re.IGNORECASE`.
-/

/-- A backtracking matcher: the possible remainders, most preferred first. -/
def Matcher : Type := List Char → List (List Char)

/-- Match one character of a class. -/
def mchar (p : Char → Bool) : Matcher := fun s =>
  match s with
  | c :: rest => if p c then [rest] else []
  | [] => []

/-- Match a literal, case-insensitively (`re.IGNORECASE`). -/
def mlitCI (lit : String) : Matcher := fun s =>
  if listStartsWithCI lit.data s then [s.drop lit.length] else []

/-- Sequencing: remainders of `a`, each continued by `b`, in backtracking
order. -/
def mseq (a b : Matcher) : Matcher := fun s => (a s).flatMap b

/-- Alternation: the left alternative is preferred. -/
def malt (a b : Matcher) : Matcher := fun s => a s ++ b s

/-- Greedy `?`: consuming is preferred over skipping. -/
def mopt (a : Matcher) : Matcher := fun s => a s ++ [s]

/-- Greedy `*` over a character class: longest run first. -/
def mstar (p : Char → Bool) : Matcher := fun s =>
  let run := (s.takeWhile p).length
  (List.range (run + 1)).map (fun k => s.drop (run - k))

/-- Greedy `+` over a character class: longest run first, at least one. -/
def mplus (p : Char → Bool) : Matcher := fun s =>
  let run := (s.takeWhile p).length
  (List.range run).map (fun k => s.drop (run - k))

/-- Greedy `{lo,hi}` over a character class. -/
def mrep (p : Char → Bool) (lo hi : Nat) : Matcher := fun s =>
  let run := min (s.takeWhile p).length hi
  if run < lo then []
  else (List.range (run + 1 - lo)).map (fun k => s.drop (run - k))

/-- Length consumed by the preferred match of `m` at the head of `s`, if any. -/
def matchLenAt (m : Matcher) (s : List Char) : Option Nat :=
  match (m s).head? with
  | some rem => some (s.length - rem.length)
  | none => none

/-- The scan of `re.finditer`: leftmost matches, non-overlapping, resuming
after each match; returns (start, stop) index pairs.  None of the embedded
patterns can match the empty string, so a zero-length result is skipped. -/
def finditerAux (m : Matcher) : Nat → List Char → Nat → List (Nat × Nat)
  | 0, _, _ => []
  | _, [], _ => []
  | fuel + 1, c :: rest, i =>
    match matchLenAt m (c :: rest) with
    | some len =>
      if len == 0 then finditerAux m fuel rest (i + 1)
      else (i, i + len) :: finditerAux m fuel (rest.drop (len - 1)) (i + len)
    | none => finditerAux m fuel rest (i + 1)

/-- All matches of `m` in `s`, as (start, stop) index pairs. -/
def finditer (m : Matcher) (s : List Char) : List (Nat × Nat) :=
  finditerAux m (s.length + 1) s 0

/-- `\s*` -/
def reWs0 : Matcher := mstar isPySpace

/-- `\s+` -/
def reWs1 : Matcher := mplus isPySpace

/-- `\d+` -/
def reDigits1 : Matcher := mplus Char.isDigit

/-- `\.\d{2}` -/
def reFrac2 : Matcher := mseq (mlitCI ".") (mrep Char.isDigit 2 2)

/-- `\d+(?:\.\d{2})?` -/
def reNum2 : Matcher := mseq reDigits1 (mopt reFrac2)

/-- `\.\d+` -/
def reFrac : Matcher := mseq (mlitCI ".") reDigits1

/-- `\d+(?:\.\d+)?` -/
def reNum : Matcher := mseq reDigits1 (mopt reFrac)

/-- `[:\s]*` -/
def reColonWs0 : Matcher := mstar (fun c => c == ':' || isPySpace c)

/-- `£?` -/
def reOptPound : Matcher := mopt (mlitCI "£")

/-- `(?:pounds?|GBP)` -/
def rePoundsOrGBP : Matcher :=
  malt (mseq (mlitCI "pound") (mopt (mlitCI "s"))) (mlitCI "GBP")

/-- The eleven price patterns of `extract_prices_with_regex`
(src/tools/web_tools.py lines 478-492), in source order. -/
def price_patterns : List Matcher :=
  [ mseq (mlitCI "£") (mseq reWs0 reNum2),
    mseq reNum2 (mseq reWs0 rePoundsOrGBP),
    mseq (mlitCI "entry") (mseq reWs1 (mseq (mlitCI "fee")
      (mseq reColonWs0 (mseq reOptPound (mseq reWs0 reNum2))))),
    mseq (mlitCI "submission") (mseq reWs1 (mseq (mlitCI "fee")
      (mseq reColonWs0 (mseq reOptPound (mseq reWs0 reNum2))))),
    mseq (mlitCI "cost") (mseq reColonWs0 (mseq reOptPound (mseq reWs0 reNum2))),
    mseq (mlitCI "price") (mseq reColonWs0 (mseq reOptPound (mseq reWs0 reNum2))),
    mseq (mlitCI "fee") (mseq reColonWs0 (mseq reOptPound (mseq reWs0 reNum2))),
    mseq (mlitCI "£") (mseq reDigits1 (mseq reWs0 (mseq (mlitCI "-")
      (mseq reWs0 (mseq (mlitCI "£") reDigits1))))),
    mseq reDigits1 (mseq reWs0 (mseq (mlitCI "-") (mseq reWs0
      (mseq reDigits1 (mseq reWs0 rePoundsOrGBP))))),
    mseq reNum (mseq reWs0 (mseq (mlitCI "%") (mseq reWs0 (mlitCI "commission")))),
    mseq (mlitCI "commission") (mseq reColonWs0 (mseq reNum (mseq reWs0 (mlitCI "%")))) ]

/-- `[\/\-\.]` -/
def reDateSep : Matcher := mchar (fun c => c == '/' || c == '-' || c == '.')

/-- `\d{1,2}` -/
def reD12 : Matcher := mrep Char.isDigit 1 2

/-- `\d{2,4}` -/
def reD24 : Matcher := mrep Char.isDigit 2 4

/-- The month-name alternation of the date patterns, in source order. -/
def reMonth : Matcher :=
  malt (mlitCI "January") (malt (mlitCI "February") (malt (mlitCI "March")
    (malt (mlitCI "April") (malt (mlitCI "May") (malt (mlitCI "June")
      (malt (mlitCI "July") (malt (mlitCI "August") (malt (mlitCI "September")
        (malt (mlitCI "October") (malt (mlitCI "November") (mlitCI "December")))))))))))

/-- `(\d{1,2})[\/\-\.](\d{1,2})[\/\-\.](\d{2,4})` -/
def reDMY : Matcher :=
  mseq reD12 (mseq reDateSep (mseq reD12 (mseq reDateSep reD24)))

/-- The twelve date patterns of `extract_dates_with_regex`
(src/tools/web_tools.py lines 533-549), in source order. -/
def date_patterns : List Matcher :=
  [ reDMY,
    mseq reD12 (mseq reWs1 (mseq reMonth (mseq reWs1 reD24))),
    mseq reMonth (mseq reWs1 (mseq reD12 (mseq (mopt (mlitCI ","))
      (mseq reWs1 reD24)))),
    mseq reMonth (mseq reWs1 reD24),
    mseq reD24 (mseq reDateSep (mseq reD12 (mseq reDateSep reD12))),
    mseq (mlitCI "deadline") (mseq reColonWs0 reDMY),
    mseq (mlitCI "deadline") (mseq reColonWs0 (mseq reD12 (mseq reWs1
      (mseq reMonth (mseq reWs1 reD24))))),
    mseq (mlitCI "submission") (mseq reWs1 (mseq (mlitCI "deadline")
      (mseq reColonWs0 reDMY))),
    mseq (mlitCI "apply") (mseq reWs1 (mseq (mlitCI "by") (mseq reColonWs0 reDMY))),
    mseq (mlitCI "close") (mseq (mopt (mlitCI "s")) (mseq reColonWs0 reDMY)),
    mseq (mlitCI "open") (mseq (mopt (mlitCI "s")) (mseq reColonWs0 reDMY)),
    mseq reDMY (mseq reWs0 (mseq (mlitCI "-") (mseq reWs0 reDMY))) ]

/-- All matches of a pattern list, pattern by pattern in source order, as the
two extraction loops accumulate them. -/
def allMatches (pats : List Matcher) (text : List Char) : List (Nat × Nat) :=
  pats.flatMap (fun m => finditer m text)

/-- The context window around a match: 50 characters each side, stripped
(src/tools/web_tools.py lines 499-501 and 556-558). -/
def contextOf (text : List Char) (start stop : Nat) : List Char :=
  pyStrip ((text.take (min text.length (stop + 50))).drop (start - 50))

/-- One output line of the extraction report:
`f"{i+1}. {group0} (context: ...{context}...)\n"`. -/
def matchLine (text : List Char) (idx : Nat) (mt : Nat × Nat) : String :=
  toString (idx + 1) ++ ". " ++ String.mk ((text.take mt.2).drop mt.1) ++
    " (context: ..." ++ String.mk (contextOf text mt.1 mt.2) ++ "...)\n"

/-- Tool `extract_prices_with_regex` (src/tools/web_tools.py lines 468-519):
collect all price-pattern matches, report the first ten with their context,
and note how many were truncated. -/
def extract_prices_with_regex (text : String) : String :=
  let cs := text.data
  let ms := allMatches price_patterns cs
  if ms.isEmpty then "No prices found in text"
  else
    let res := ((ms.take 10).enum.map (fun p => matchLine cs p.1 p.2)).foldl
      (fun a b => a ++ b) "Extracted Prices:\n"
    if 10 < ms.length then
      res ++ "... and " ++ toString (ms.length - 10) ++ " more prices found"
    else res

/-- Tool `extract_dates_with_regex` (src/tools/web_tools.py lines 523-576):
same shape as the price extractor, over the date patterns. -/
def extract_dates_with_regex (text : String) : String :=
  let cs := text.data
  let ms := allMatches date_patterns cs
  if ms.isEmpty then "No dates found in text"
  else
    let res := ((ms.take 10).enum.map (fun p => matchLine cs p.1 p.2)).foldl
      (fun a b => a ++ b) "Extracted Dates:\n"
    if 10 < ms.length then
      res ++ "... and " ++ toString (ms.length - 10) ++ " more dates found"
    else res

/-- Removal scan for `re.sub(r'<script[^>]*>.*?</script>', '', ..)` and its
`<style>` twin (DOTALL, IGNORECASE): from each leftmost opening tag, the
greedy `[^>]*>` runs to the first `>`, the lazy `.*?` to the nearest closing
tag; if either is absent no later start can complete the pattern, so the text
is returned as is. -/
def stripBlocksAux (openTag closeTag : List Char) : Nat → List Char → List Char
  | 0, s => s
  | fuel + 1, s =>
    match findCI openTag s with
    | none => s
    | some i =>
      match (s.drop (i + openTag.length)).findIdx? (fun c => c == '>') with
      | none => s
      | some j =>
        let afterGt := (s.drop (i + openTag.length)).drop (j + 1)
        match findCI closeTag afterGt with
        | none => s
        | some k =>
          s.take i ++ stripBlocksAux openTag closeTag fuel (afterGt.drop (k + closeTag.length))

/-- Drop every `<script ...>...</script>` block. -/
def stripScriptBlocks (s : List Char) : List Char :=
  stripBlocksAux "<script".data "</script>".data (s.length + 1) s

/-- Drop every `<style ...>...</style>` block. -/
def stripStyleBlocks (s : List Char) : List Char :=
  stripBlocksAux "<style".data "</style>".data (s.length + 1) s

/-- `re.sub(r'<[^>]+>', ' ', ..)`: replace every nonempty tag by one space. -/
def stripTagsAux : Nat → List Char → List Char
  | 0, s => s
  | _, [] => []
  | fuel + 1, '<' :: rest =>
    match rest with
    | [] => ['<']
    | c :: _ =>
      if c == '>' then '<' :: stripTagsAux fuel rest
      else
        match rest.findIdx? (fun ch => ch == '>') with
        | some j => ' ' :: stripTagsAux fuel (rest.drop (j + 1))
        | none => '<' :: stripTagsAux fuel rest
  | fuel + 1, c :: rest => c :: stripTagsAux fuel rest

/-- `re.sub(r'<[^>]+>', ' ', s)`. -/
def stripTags (s : List Char) : List Char :=
  stripTagsAux (s.length + 1) s

/-- `re.sub(r'\s+', ' ', s)`: collapse each whitespace run to one space. -/
def collapseWsAux : Nat → List Char → List Char
  | 0, s => s
  | _, [] => []
  | fuel + 1, c :: rest =>
    if isPySpace c then ' ' :: collapseWsAux fuel (rest.dropWhile isPySpace)
    else c :: collapseWsAux fuel rest

/-- `re.sub(r'\s+', ' ', s)`. -/
def collapseWs (s : List Char) : List Char :=
  collapseWsAux (s.length + 1) s

/-- The regex text-extraction fallback of `preprocess_content_for_extraction`
(src/tools/web_tools.py lines 696-701): drop script and style blocks, blank
out the remaining tags, collapse whitespace, strip. -/
def regexExtractText (html : List Char) : List Char :=
  pyStrip (collapseWs (stripTags (stripStyleBlocks (stripScriptBlocks html))))

/-- The process-wide `_content_cache` (src/tools/web_tools.py line 436): a
dict from content hash to the cached processed content.  The stored
`time.time()` timestamp is never read back and is elided.  Insertion prepends,
and `cacheGet` takes the first binding, which gives dict-overwrite
semantics for lookup. -/
abbrev Cache : Type := List (String × String)

/-- Dict lookup `_content_cache.get(h)`. -/
def cacheGet (cache : Cache) (h : String) : Option String :=
  match cache with
  | [] => none
  | (k, v) :: rest => if k == h then some v else cacheGet rest h

/-- Dict store `_content_cache[h] = {'content': v, ...}`. -/
def cacheSet (cache : Cache) (h v : String) : Cache := (h, v) :: cache

/-- `hashlib.md5(body).hexdigest()`, modelled as an injective key: the raw
body itself stands for its digest, which ignores md5 collisions (the spec's
exact-match contract) but keeps every cache operation keyed by the body
byte-for-byte. -/
def md5_hex (s : String) : String := s

/-- First eight characters, `content_hash[:8]`. -/
def take8 (s : String) : String := String.mk (s.data.take 8)

/-- Tool `cache_similar_content_patterns` (src/tools/web_tools.py lines
439-464): with no content, report a hit or a miss; with content, store it and
report the size. -/
def cache_similar_content_patterns (cache : Cache) (content_hash : String)
    (content : Option String) : Cache × String :=
  match content with
  | none =>
    match cacheGet cache content_hash with
    | some _ => (cache, "Cache hit: Retrieved content for hash " ++ take8 content_hash ++ "...")
    | none => (cache, "Cache miss: No content found for hash " ++ take8 content_hash ++ "...")
  | some c =>
    (cacheSet cache content_hash c,
     "Cached content with hash " ++ take8 content_hash ++ "... (size: " ++
       toString c.length ++ " chars)")

/-- The fixed keyword list passed by `preprocess_content_for_extraction` to
the content reducer (src/tools/web_tools.py lines 719-720). -/
def exhibition_keywords : List String :=
  ["exhibition", "entry fee", "submission", "deadline", "prize",
   "competition", "open call", "cost", "commission", "apply"]

/-- The try-block of `preprocess_content_for_extraction` (src/tools/web_tools.py
lines 678-742) without its caching side effect.  The embedding follows the
regex path (BeautifulSoup absent); per the spec both paths share one
downstream contract.  Line 704 recomputes the same regex extraction when the
first result is empty or shorter than ten characters, and line 714 collapses
whitespace once more without stripping. -/
def processedContent (html_content : String) : String :=
  let text0 := regexExtractText html_content.data
  let text1 := if text0.isEmpty || text0.length < 10 then regexExtractText html_content.data
               else text0
  let text2 := collapseWs text1
  let relevant := reduce_content_to_relevant_sections (String.mk text2) exhibition_keywords
  let prices := extract_prices_with_regex relevant
  let dates := extract_dates_with_regex relevant
  "PREPROCESSED CONTENT (Token Optimized):\n\nRELEVANT TEXT:\n" ++ relevant ++
    "\n\nEXTRACTED STRUCTURED DATA:\n" ++ prices ++ "\n\n" ++ dates ++ "\n"

/-- The fall-through of `preprocess_content_for_extraction`: compute the
processed content and cache it under the hash (src/tools/web_tools.py
lines 678-742). -/
def processAndCache (cache : Cache) (html_content content_hash : String) :
    String × Cache :=
  let processed := processedContent html_content
  (processed, (cache_similar_content_patterns cache content_hash (some processed)).1)

/-- Tool `preprocess_content_for_extraction` (src/tools/web_tools.py lines
655-752): hash the raw body, ask the cache, and on a hit with nonempty stored
content return it behind a `[CACHED CONTENT]` marker; otherwise process the
body and cache the result. -/
def preprocess_content_for_extraction (cache : Cache) (html_content : String) :
    String × Cache :=
  let content_hash := md5_hex html_content
  let cached_result := (cache_similar_content_patterns cache content_hash none).2
  if containsSub "Cache hit".data cached_result.data then
    let cached_data := (cacheGet cache content_hash).getD ""
    if cached_data == "" then processAndCache cache html_content content_hash
    else ("[CACHED CONTENT]\n" ++ cached_data, cache)
  else processAndCache cache html_content content_hash

/-- `ScrapingConfig` (src/tools/web_tools.py lines 76-92).  Delays are exact
rationals; the user-agent pool only feeds header rotation and is elided. -/
structure ScrapingConfig where
  min_delay : ℚ
  max_delay : ℚ
  timeout : Nat
  max_retries : Nat
deriving Repr, DecidableEq

/-- The default configuration: `min_delay=2.0, max_delay=8.0, timeout=30,
max_retries=3`. -/
def defaultScrapingConfig : ScrapingConfig :=
  { min_delay := 2, max_delay := 8, timeout := 30, max_retries := 3 }

/-- The retry loop of `RateLimitedScraper.scrape_url` (src/tools/web_tools.py
lines 127-153), from a given attempt index with the remaining loop iterations
as fuel.  `transport n` is the outcome of `session.get` plus
`raise_for_status` on attempt `n` (`Except.error` is a raised
`requests.exceptions.RequestException`); `jitter n` is the value drawn by
`random.uniform(0, 1)` after attempt `n`.  Returns the result, the number of
attempts performed, and the backoff delays slept between attempts. -/
def scrape_url_from (cfg : ScrapingConfig) (transport : Nat → Except String String)
    (jitter : Nat → ℚ) : Nat → Nat → Option String × Nat × List ℚ
  | _, 0 => (none, 0, [])
  | attempt, fuel + 1 =>
    match transport attempt with
    | .ok body => (some body, 1, [])
    | .error _ =>
      if attempt == cfg.max_retries - 1 then (none, 1, [])
      else
        let backoff := (2 : ℚ) ^ attempt + jitter attempt
        let rest := scrape_url_from cfg transport jitter (attempt + 1) fuel
        (rest.1, rest.2.1 + 1, backoff :: rest.2.2)

/-- `RateLimitedScraper.scrape_url`: run the loop over
`range(self.config.max_retries)` from attempt 0.  The rate-limit wait before
the first attempt (`_wait_for_rate_limit`) precedes the loop and does not
affect the attempt/backoff accounting modelled here. -/
def scrape_url (cfg : ScrapingConfig) (transport : Nat → Except String String)
    (jitter : Nat → ℚ) : Option String × Nat × List ℚ :=
  scrape_url_from cfg transport jitter 0 cfg.max_retries

/-
Theorems.  Each claim Cn of the specification gets one theorem named
`cn_...`, with a witness theorem instantiating it at concrete inputs when it
carries hypotheses.
-/

/-- Claim C2: for every input whose start date is strictly after its end date,
the event-insertion operation raises a ValidationError and writes no row: the
events table is unchanged after the failed call. -/
theorem c2_insert_event_date_invariant :
    ∀ (db : DB) (title : String) (ds de : PyDate) (venue location : String)
      (county : Option String) (url_id : Nat) (description : Option String) (now : Nat),
    PyDate.lt de ds = true →
    isValidationError (Tools.add_exhibition db title ds de venue location county url_id description now) ∧
    runDB (Tools.add_exhibition db title ds de venue location county url_id description now) db = db := by
  intro db title ds de venue location county url_id description now h
  refine ⟨⟨"Invalid date format: Start date cannot be after end date", ?_⟩, ?_⟩ <;>
    simp [Tools.add_exhibition, h, runDB]

/-- Witness for C2: the spec scenario start 2025-06-01, end 2025-05-01. -/
theorem c2_insert_event_date_invariant_witness :
    isValidationError (Tools.add_exhibition emptyDB "Summer Open" ⟨2025, 6, 1⟩ ⟨2025, 5, 1⟩
      "Gallery" "Leeds" none 1 none 0) ∧
    runDB (Tools.add_exhibition emptyDB "Summer Open" ⟨2025, 6, 1⟩ ⟨2025, 5, 1⟩
      "Gallery" "Leeds" none 1 none 0) emptyDB = emptyDB :=
  c2_insert_event_date_invariant emptyDB "Summer Open" ⟨2025, 6, 1⟩ ⟨2025, 5, 1⟩
    "Gallery" "Leeds" none 1 none 0 (by decide)

/-- Claim C3: the fee-tier insertion rejects every negative fee amount, every
negative flat rate, and every commission outside [0, 100]; the prize insertion
rejects every rank below 1 and every negative amount; in each case a
ValidationError is raised before any write, so no row is persisted. -/
theorem c3_numeric_bounds :
    ∀ (db : DB) (eid : Nat) (ne : Int) (fa : ℚ) (fr cp : Option ℚ)
      (pr : Option Int) (pa : Option ℚ) (pt pd : Option String) (now : Nat),
    (fa < 0 →
      isValidationError (Tools.add_entry_fee db eid ne fa fr cp) ∧
      runDB (Tools.add_entry_fee db eid ne fa fr cp) db = db) ∧
    (∀ f, fr = some f → f < 0 →
      isValidationError (Tools.add_entry_fee db eid ne fa fr cp) ∧
      runDB (Tools.add_entry_fee db eid ne fa fr cp) db = db) ∧
    (∀ c, cp = some c → (c < 0 ∨ 100 < c) →
      isValidationError (Tools.add_entry_fee db eid ne fa fr cp) ∧
      runDB (Tools.add_entry_fee db eid ne fa fr cp) db = db) ∧
    (∀ k, pr = some k → k < 1 →
      isValidationError (Tools.add_prize db eid pr pa pt pd now) ∧
      runDB (Tools.add_prize db eid pr pa pt pd now) db = db) ∧
    (∀ a, pa = some a → a < 0 →
      isValidationError (Tools.add_prize db eid pr pa pt pd now) ∧
      runDB (Tools.add_prize db eid pr pa pt pd now) db = db) := by
  intro db eid ne fa fr cp pr pa pt pd now
  refine ⟨?_, ?_, ?_, ?_, ?_⟩
  · intro hfa
    unfold Tools.add_entry_fee
    rw [if_pos hfa]
    exact ⟨⟨_, rfl⟩, rfl⟩
  · rintro f rfl hf
    unfold Tools.add_entry_fee
    by_cases hfa : fa < 0
    · rw [if_pos hfa]; exact ⟨⟨_, rfl⟩, rfl⟩
    · rw [if_neg hfa]
      simp only [decide_eq_true_eq]
      rw [if_pos hf]
      exact ⟨⟨_, rfl⟩, rfl⟩
  · rintro c rfl hc
    unfold Tools.add_entry_fee
    by_cases hfa : fa < 0
    · rw [if_pos hfa]; exact ⟨⟨_, rfl⟩, rfl⟩
    · rw [if_neg hfa]
      by_cases hfr : (match fr with | some f => decide (f < 0) | none => false) = true
      · rw [if_pos hfr]; exact ⟨⟨_, rfl⟩, rfl⟩
      · rw [if_neg hfr]
        have hcond : (decide (c < 0) || decide (100 < c)) = true := by
          rcases hc with hc | hc <;> simp [hc]
        rw [if_pos hcond]
        exact ⟨⟨_, rfl⟩, rfl⟩
  · rintro k rfl hk
    unfold Tools.add_prize
    by_cases hpa : (match pa with | some a => decide (a < 0) | none => false) = true
    · rw [if_pos hpa]; exact ⟨⟨_, rfl⟩, rfl⟩
    · rw [if_neg hpa]
      simp only [decide_eq_true_eq]
      rw [if_pos hk]
      exact ⟨⟨_, rfl⟩, rfl⟩
  · rintro a rfl ha
    unfold Tools.add_prize
    simp only [decide_eq_true_eq]
    rw [if_pos ha]
    exact ⟨⟨_, rfl⟩, rfl⟩

/-- Witness for C3: concrete stores and values triggering all five rejections,
among them the spec scenario fee amount -5.00. -/
theorem c3_numeric_bounds_witness :
    (isValidationError (Tools.add_entry_fee emptyDB 1 1 (-5) none none) ∧
      runDB (Tools.add_entry_fee emptyDB 1 1 (-5) none none) emptyDB = emptyDB) ∧
    (isValidationError (Tools.add_entry_fee emptyDB 1 1 10 (some (-1)) none) ∧
      runDB (Tools.add_entry_fee emptyDB 1 1 10 (some (-1)) none) emptyDB = emptyDB) ∧
    (isValidationError (Tools.add_entry_fee emptyDB 1 1 10 none (some 101)) ∧
      runDB (Tools.add_entry_fee emptyDB 1 1 10 none (some 101)) emptyDB = emptyDB) ∧
    (isValidationError (Tools.add_prize emptyDB 1 (some 0) none none none 0) ∧
      runDB (Tools.add_prize emptyDB 1 (some 0) none none none 0) emptyDB = emptyDB) ∧
    (isValidationError (Tools.add_prize emptyDB 1 none (some (-3)) none none 0) ∧
      runDB (Tools.add_prize emptyDB 1 none (some (-3)) none none 0) emptyDB = emptyDB) :=
  ⟨(c3_numeric_bounds emptyDB 1 1 (-5) none none none none none none 0).1 (by norm_num),
   (c3_numeric_bounds emptyDB 1 1 10 (some (-1)) none none none none none 0).2.1
     (-1) rfl (by norm_num),
   (c3_numeric_bounds emptyDB 1 1 10 none (some 101) none none none none 0).2.2.1
     101 rfl (Or.inr (by norm_num)),
   (c3_numeric_bounds emptyDB 1 1 10 none none (some 0) none none none 0).2.2.2.1
     0 rfl (by norm_num),
   (c3_numeric_bounds emptyDB 1 1 10 none none none (some (-3)) none none 0).2.2.2.2
     (-3) rfl (by norm_num)⟩

/-- When no stripped section matches a keyword, the filtering loop keeps
nothing. -/
theorem relevantSections_eq_nil (kws : List String) :
    ∀ (l : List (List Char)),
    (∀ sec ∈ l, sectionMatches kws (pyStrip sec) = false) →
    relevantSections kws l = [] := by
  intro l
  induction l with
  | nil => intro _; rfl
  | cons sec rest ih =>
    intro h
    have hsec := h sec (by simp)
    have hrest : ∀ s ∈ rest, sectionMatches kws (pyStrip s) = false :=
      fun s hs => h s (by simp [hs])
    simp only [relevantSections]
    split_ifs with h1 h2
    · exact ih hrest
    · rw [hsec] at h2; exact absurd h2 (by simp)
    · exact ih hrest

/-- Claim C7: for every content in which no segment matches any keyword under
case-insensitive substring search, the reducer returns the first three
segments of the split (joined and capped as usual) rather than nothing. -/
theorem c7_keyword_fallback :
    ∀ (content : String) (keywords : List String),
    (∀ sec ∈ sectionsOf content, sectionMatches (effKeywords keywords) (pyStrip sec) = false) →
    reduce_content_to_relevant_sections content keywords =
      String.mk (truncateContent (joinSections content ((sectionsOf content).take 3))) := by
  intro content keywords h
  show String.mk (truncateContent (joinSections content
      (if (relevantSections (effKeywords keywords) (sectionsOf content)).isEmpty then
        (sectionsOf content).take 3
      else relevantSections (effKeywords keywords) (sectionsOf content)))) = _
  rw [relevantSections_eq_nil _ _ h]
  simp

/-- Witness for C7: four keyword-free paragraphs reduce to the first three. -/
theorem c7_keyword_fallback_witness :
    reduce_content_to_relevant_sections
        "alpha beta\n\ngamma delta\n\nepsilon one\n\nzeta two" ["prize"] =
      String.mk (truncateContent (joinSections
        "alpha beta\n\ngamma delta\n\nepsilon one\n\nzeta two"
        ((sectionsOf "alpha beta\n\ngamma delta\n\nepsilon one\n\nzeta two").take 3))) ∧
    reduce_content_to_relevant_sections
        "alpha beta\n\ngamma delta\n\nepsilon one\n\nzeta two" ["prize"] =
      "alpha beta\n\ngamma delta\n\nepsilon one" :=
  ⟨c7_keyword_fallback "alpha beta\n\ngamma delta\n\nepsilon one\n\nzeta two" ["prize"]
      (by decide),
   by decide⟩

/-- Claim C8: a fetch whose transport fails on every attempt performs exactly
three attempts and returns the failure value, sleeping 2 ^ attempt plus the
drawn jitter before each retry (attempt 0-indexed), each delay lying in
[2 ^ attempt, 2 ^ attempt + 1) when the jitter lies in [0, 1). -/
theorem c8_retry_exhaustion :
    ∀ (transport : Nat → Except String String) (jitter : Nat → ℚ),
    (∀ n, ∃ e, transport n = .error e) →
    (∀ n, 0 ≤ jitter n ∧ jitter n < 1) →
    scrape_url defaultScrapingConfig transport jitter =
      (none, 3, [(2 : ℚ) ^ 0 + jitter 0, (2 : ℚ) ^ 1 + jitter 1]) ∧
    ((2 : ℚ) ^ 0 ≤ (2 : ℚ) ^ 0 + jitter 0 ∧ (2 : ℚ) ^ 0 + jitter 0 < (2 : ℚ) ^ 0 + 1) ∧
    ((2 : ℚ) ^ 1 ≤ (2 : ℚ) ^ 1 + jitter 1 ∧ (2 : ℚ) ^ 1 + jitter 1 < (2 : ℚ) ^ 1 + 1) := by
  intro transport jitter hfail hj
  obtain ⟨e0, h0⟩ := hfail 0
  obtain ⟨e1, h1⟩ := hfail 1
  obtain ⟨e2, h2⟩ := hfail 2
  refine ⟨?_, ⟨?_, ?_⟩, ⟨?_, ?_⟩⟩
  · simp [scrape_url, defaultScrapingConfig, scrape_url_from, h0, h1, h2]
  · linarith [(hj 0).1]
  · linarith [(hj 0).2]
  · linarith [(hj 1).1]
  · linarith [(hj 1).2]

/-- Witness for C8: an always-failing transport with jitter one half gives
three attempts, no result, and delays 3/2 and 5/2. -/
theorem c8_retry_exhaustion_witness :
    scrape_url defaultScrapingConfig (fun _ => .error "ConnectionError") (fun _ => 1 / 2) =
      (none, 3, [(2 : ℚ) ^ 0 + (1 / 2 : ℚ), (2 : ℚ) ^ 1 + (1 / 2 : ℚ)]) ∧
    ((2 : ℚ) ^ 0 ≤ (2 : ℚ) ^ 0 + (1 / 2 : ℚ) ∧ (2 : ℚ) ^ 0 + (1 / 2 : ℚ) < (2 : ℚ) ^ 0 + 1) ∧
    ((2 : ℚ) ^ 1 ≤ (2 : ℚ) ^ 1 + (1 / 2 : ℚ) ∧ (2 : ℚ) ^ 1 + (1 / 2 : ℚ) < (2 : ℚ) ^ 1 + 1) :=
  c8_retry_exhaustion (fun _ => .error "ConnectionError") (fun _ => 1 / 2)
    (fun _ => ⟨"ConnectionError", rfl⟩) (fun _ => by norm_num)

/-- Claim C1: under the schema invariant that a URL occurs in at most one row,
inserting the same URL twice returns the same id both times, leaves exactly
one row with that URL, and when a row with the URL already exists the call
returns that row's id and changes nothing. -/
theorem c1_add_url_idempotent :
    ∀ (db : DB) (u : String) (t d l ds : Option String) (now : Nat)
      (t2 d2 l2 ds2 : Option String) (now2 : Nat),
    urlCount db u ≤ 1 →
    ∃ (i : Nat) (db1 : DB),
      Tools.add_url db u t d l ds now = .ok (i, db1) ∧
      Tools.add_url db1 u t2 d2 l2 ds2 now2 = .ok (i, db1) ∧
      urlCount db1 u = 1 ∧
      ∀ r ∈ db.urls, r.url = u → i = r.id ∧ db1 = db := by
  intro db u t d l ds now t2 d2 l2 ds2 now2 h
  unfold urlCount at h
  cases hF : db.urls.filter (urlMatches u) with
  | nil =>
    refine ⟨db.next_url_id,
      { db with urls := db.urls ++ [⟨db.next_url_id, t, d, l, ds, u, now, now⟩],
                next_url_id := db.next_url_id + 1 }, ?_, ?_, ?_, ?_⟩
    · simp [Tools.add_url, DbMgr.add_url, hF, scalar_one_or_none]
    · simp [Tools.add_url, DbMgr.add_url, List.filter_append, hF, urlMatches,
        scalar_one_or_none]
    · simp [urlCount, List.filter_append, hF, urlMatches]
    · intro r hr hru
      have hmem : r ∈ db.urls.filter (urlMatches u) :=
        List.mem_filter.mpr ⟨hr, by simp [urlMatches, hru]⟩
      rw [hF] at hmem
      simp at hmem
  | cons x xs =>
    cases xs with
    | cons y ys =>
      exfalso
      rw [hF] at h
      simp at h
    | nil =>
      have hmemx : x ∈ db.urls.filter (urlMatches u) := by rw [hF]; simp
      refine ⟨x.id, db, ?_, ?_, ?_, ?_⟩
      · simp [Tools.add_url, DbMgr.add_url, hF, scalar_one_or_none]
      · simp [Tools.add_url, DbMgr.add_url, hF, scalar_one_or_none]
      · simp [urlCount, hF]
      · intro r hr hru
        have hmem : r ∈ db.urls.filter (urlMatches u) :=
          List.mem_filter.mpr ⟨hr, by simp [urlMatches, hru]⟩
        rw [hF] at hmem
        simp at hmem
        exact ⟨by rw [hmem], rfl⟩

/-- Witness for C1: the spec scenario, a fresh store and the URL
https://a.test/x inserted twice. -/
theorem c1_add_url_idempotent_witness :
    ∃ (i : Nat) (db1 : DB),
      Tools.add_url emptyDB "https://a.test/x" none none none none 5 = .ok (i, db1) ∧
      Tools.add_url db1 "https://a.test/x" none none none none 9 = .ok (i, db1) ∧
      urlCount db1 "https://a.test/x" = 1 ∧
      ∀ r ∈ emptyDB.urls, r.url = "https://a.test/x" → i = r.id ∧ db1 = emptyDB :=
  c1_add_url_idempotent emptyDB "https://a.test/x" none none none none 5
    none none none none 9 (by decide)

/-- Claim C9: an add_url call whose URL matches an existing row returns that
row with every stored field unchanged (raw fields and both timestamps) and
leaves the store untouched: the supplied arguments are discarded. -/
theorem c9_add_url_frame :
    ∀ (db : DB) (r : UrlRow) (u : String) (t d l ds : Option String) (now : Nat),
    r ∈ db.urls → r.url = u → urlCount db u ≤ 1 →
    DbMgr.add_url db u t d l ds now = .ok (r, db) := by
  intro db r u t d l ds now hr hru h
  have hrf : r ∈ db.urls.filter (urlMatches u) :=
    List.mem_filter.mpr ⟨hr, by simp [urlMatches, hru]⟩
  unfold urlCount at h
  cases hF : db.urls.filter (urlMatches u) with
  | nil => rw [hF] at hrf; simp at hrf
  | cons x xs =>
    cases xs with
    | cons y ys => exfalso; rw [hF] at h; simp at h
    | nil =>
      rw [hF] at hrf
      simp at hrf
      subst hrf
      simp [DbMgr.add_url, hF, scalar_one_or_none]

/-- Witness for C9: a stored row with populated raw fields and timestamps is
returned verbatim when its URL is re-inserted with different arguments. -/
theorem c9_add_url_frame_witness :
    DbMgr.add_url
        { emptyDB with
            urls := [⟨1, some "old title", some "old date", some "old loc",
              some "old desc", "https://a.test/x", 10, 20⟩],
            next_url_id := 2 }
        "https://a.test/x" (some "new title") none none (some "new desc") 99 =
      .ok (⟨1, some "old title", some "old date", some "old loc", some "old desc",
            "https://a.test/x", 10, 20⟩,
        { emptyDB with
            urls := [⟨1, some "old title", some "old date", some "old loc",
              some "old desc", "https://a.test/x", 10, 20⟩],
            next_url_id := 2 }) :=
  c9_add_url_frame _ _ "https://a.test/x" (some "new title") none none (some "new desc") 99
    (by decide) (by decide) (by decide)

/-- Claim C4: under the uniqueness constraint on (exhibition, entry count),
two add_entry_fee calls with the same key return the same row on the second
call, exactly one row with that key exists afterwards, and no other key's row
count changes. -/
theorem c4_fee_tier_uniqueness :
    ∀ (db : DB) (eid : Nat) (ne : Option Int) (fa1 fr1 cp1 fa2 fr2 cp2 : Option ℚ),
    feePairCount db eid ne ≤ 1 →
    ∃ (r : EntryFeeRow) (db1 : DB),
      DbMgr.add_entry_fee db eid ne fa1 fr1 cp1 = .ok (r, db1) ∧
      DbMgr.add_entry_fee db1 eid ne fa2 fr2 cp2 = .ok (r, db1) ∧
      feePairCount db1 eid ne = 1 ∧
      ∀ eid2 ne2, (eid2 ≠ eid ∨ ne2 ≠ ne) →
        feePairCount db1 eid2 ne2 = feePairCount db eid2 ne2 := by
  intro db eid ne fa1 fr1 cp1 fa2 fr2 cp2 h
  unfold feePairCount at h
  cases hF : db.entry_fees.filter (feeKeyMatches eid ne) with
  | nil =>
    refine ⟨⟨db.next_fee_id, eid, "tier", ne, fa1, fr1, cp1⟩,
      { db with entry_fees := db.entry_fees ++ [⟨db.next_fee_id, eid, "tier", ne, fa1, fr1, cp1⟩],
                next_fee_id := db.next_fee_id + 1 }, ?_, ?_, ?_, ?_⟩
    · simp [DbMgr.add_entry_fee, hF, scalar_one_or_none]
    · simp [DbMgr.add_entry_fee, List.filter_append, hF, feeKeyMatches,
        scalar_one_or_none]
    · simp [feePairCount, List.filter_append, hF, feeKeyMatches]
    · intro eid2 ne2 hne
      rcases hne with hne | hne <;>
        simp [feePairCount, List.filter_append, feeKeyMatches, Ne.symm hne]
  | cons x xs =>
    cases xs with
    | cons y ys => exfalso; rw [hF] at h; simp at h
    | nil =>
      refine ⟨x, db, ?_, ?_, ?_, ?_⟩
      · simp [DbMgr.add_entry_fee, hF, scalar_one_or_none]
      · simp [DbMgr.add_entry_fee, hF, scalar_one_or_none]
      · simp [feePairCount, hF]
      · intro eid2 ne2 _
        rfl

/-- Witness for C4: a fresh store, key (1, 6), inserted twice with different
fee values. -/
theorem c4_fee_tier_uniqueness_witness :
    ∃ (r : EntryFeeRow) (db1 : DB),
      DbMgr.add_entry_fee emptyDB 1 (some 6) (some 25) none none = .ok (r, db1) ∧
      DbMgr.add_entry_fee db1 1 (some 6) (some 40) (some 5) none = .ok (r, db1) ∧
      feePairCount db1 1 (some 6) = 1 ∧
      ∀ eid2 ne2, (eid2 ≠ 1 ∨ ne2 ≠ some 6) →
        feePairCount db1 eid2 ne2 = feePairCount emptyDB eid2 ne2 :=
  c4_fee_tier_uniqueness emptyDB 1 (some 6) (some 25) none none (some 40) (some 5) none
    (by decide)

/-- Claim C10: an add_entry_fee call whose (exhibition_id, number_entries)
matches an existing row returns that row with its original fee_amount,
flat_rate and commission_percent, discarding the supplied values, and leaves
the store untouched. -/
theorem c10_add_entry_fee_frame :
    ∀ (db : DB) (r : EntryFeeRow) (eid : Nat) (ne : Option Int) (fa fr cp : Option ℚ),
    r ∈ db.entry_fees → r.exhibition_id = eid → r.number_entries = ne →
    feePairCount db eid ne ≤ 1 →
    DbMgr.add_entry_fee db eid ne fa fr cp = .ok (r, db) := by
  intro db r eid ne fa fr cp hr hre hrn h
  have hrf : r ∈ db.entry_fees.filter (feeKeyMatches eid ne) :=
    List.mem_filter.mpr ⟨hr, by simp [feeKeyMatches, hre, hrn]⟩
  unfold feePairCount at h
  cases hF : db.entry_fees.filter (feeKeyMatches eid ne) with
  | nil => rw [hF] at hrf; simp at hrf
  | cons x xs =>
    cases xs with
    | cons y ys => exfalso; rw [hF] at h; simp at h
    | nil =>
      rw [hF] at hrf
      simp at hrf
      subst hrf
      simp [DbMgr.add_entry_fee, hF, scalar_one_or_none]

/-- Witness for C10: a stored tier row with fee 25, flat rate none and
commission 30 is returned verbatim when its key is re-inserted with different
values. -/
theorem c10_add_entry_fee_frame_witness :
    DbMgr.add_entry_fee
        { emptyDB with
            entry_fees := [⟨1, 7, "tier", some 3, some 25, none, some 30⟩],
            next_fee_id := 2 }
        7 (some 3) (some 99) (some 1) (some 10) =
      .ok (⟨1, 7, "tier", some 3, some 25, none, some 30⟩,
        { emptyDB with
            entry_fees := [⟨1, 7, "tier", some 3, some 25, none, some 30⟩],
            next_fee_id := 2 }) :=
  c10_add_entry_fee_frame _ _ 7 (some 3) (some 99) (some 1) (some 10)
    (by decide) (by decide) (by decide) (by decide)

/-- When every record has all required fields, the bulk-insert loop builds one
row per record, with consecutive flush-assigned ids. -/
theorem buildExhibitions_ok (now : Nat) :
    ∀ (data : List ExhibitionData) (nid : Nat),
    (∀ d ∈ data, hasAllRequired d = true) →
    ∃ rows, DbMgr.buildExhibitions nid now data = .ok rows ∧
      rows.map (fun r => r.id) = (List.range data.length).map (fun k => nid + k) := by
  intro data
  induction data with
  | nil => intro nid _; exact ⟨[], rfl, rfl⟩
  | cons d rest ih =>
    intro nid h
    have hd := h d (by simp)
    have hrest : ∀ x ∈ rest, hasAllRequired x = true := fun x hx => h x (by simp [hx])
    obtain ⟨rows, hrows, hids⟩ := ih (nid + 1) hrest
    simp only [hasAllRequired, Bool.and_eq_true, Option.isSome_iff_exists] at hd
    obtain ⟨⟨⟨⟨⟨⟨t, ht⟩, ⟨ds, hds⟩⟩, ⟨de, hde⟩⟩, ⟨v, hv⟩⟩, ⟨loc, hloc⟩⟩, ⟨u, hu⟩⟩ := hd
    refine ⟨{ id := nid, title := t, date_start := ds, date_end := de, venue := v,
              location := loc, county := d.county, description := d.description,
              url_id := u, created_at := now, updated_at := now } :: rows, ?_, ?_⟩
    · simp only [DbMgr.buildExhibitions, ht, hds, hde, hv, hloc, hu, hrows]
    · simp only [List.map_cons, hids, List.length_cons, List.range_succ_eq_map,
        List.map_map, Nat.add_zero]
      refine congrArg (List.cons nid) (List.map_congr_left ?_)
      intro k _
      simp only [Function.comp_apply, Nat.succ_eq_add_one]
      omega

/-- When some record lacks a required field, the bulk-insert loop raises a
ValidationError. -/
theorem buildExhibitions_error (now : Nat) :
    ∀ (data : List ExhibitionData) (nid : Nat),
    (∃ d ∈ data, hasAllRequired d = false) →
    isValidationError (DbMgr.buildExhibitions nid now data) := by
  intro data
  induction data with
  | nil => intro nid h; simp at h
  | cons d rest ih =>
    intro nid h
    by_cases hd : hasAllRequired d = true
    · have hbad : ∃ x ∈ rest, hasAllRequired x = false := by
        rcases h with ⟨x, hx, hxf⟩
        rcases List.mem_cons.mp hx with rfl | hx
        · rw [hd] at hxf; cases hxf
        · exact ⟨x, hx, hxf⟩
      simp only [hasAllRequired, Bool.and_eq_true, Option.isSome_iff_exists] at hd
      obtain ⟨⟨⟨⟨⟨⟨t, ht⟩, ⟨ds, hds⟩⟩, ⟨de, hde⟩⟩, ⟨v, hv⟩⟩, ⟨loc, hloc⟩⟩, ⟨u, hu⟩⟩ := hd
      obtain ⟨m, hm⟩ := ih (nid + 1) hbad
      exact ⟨m, by simp only [DbMgr.buildExhibitions, ht, hds, hde, hv, hloc, hu, hm]⟩
    · cases ht : d.title with
      | none =>
        exact ⟨"Missing required field: title",
          by simp only [DbMgr.buildExhibitions, ht]⟩
      | some t =>
      cases hds : d.date_start with
      | none =>
        exact ⟨"Missing required field: date_start",
          by simp only [DbMgr.buildExhibitions, ht, hds]⟩
      | some ds =>
      cases hde : d.date_end with
      | none =>
        exact ⟨"Missing required field: date_end",
          by simp only [DbMgr.buildExhibitions, ht, hds, hde]⟩
      | some de =>
      cases hv : d.venue with
      | none =>
        exact ⟨"Missing required field: venue",
          by simp only [DbMgr.buildExhibitions, ht, hds, hde, hv]⟩
      | some v =>
      cases hloc : d.location with
      | none =>
        exact ⟨"Missing required field: location",
          by simp only [DbMgr.buildExhibitions, ht, hds, hde, hv, hloc]⟩
      | some loc =>
      cases hu : d.url_id with
      | none =>
        exact ⟨"Missing required field: url_id",
          by simp only [DbMgr.buildExhibitions, ht, hds, hde, hv, hloc, hu]⟩
      | some u =>
        exact absurd (by simp [hasAllRequired, ht, hds, hde, hv, hloc, hu]) hd

/-- Claim C5: the bulk event insertion checks the required fields of every
record and inserts the whole list in one transaction, returning the new ids;
if any record is missing a required field the whole batch fails with a
ValidationError and zero rows from the batch are persisted. -/
theorem c5_bulk_insert_all_or_nothing :
    ∀ (db : DB) (data : List ExhibitionData) (now : Nat),
    ((∀ d ∈ data, hasAllRequired d = true) →
      ∃ rows db1, DbMgr.bulk_insert_exhibitions db data now = .ok (rows, db1) ∧
        rows.map (fun r => r.id) =
          (List.range data.length).map (fun k => db.next_exhibition_id + k) ∧
        db1.exhibitions = db.exhibitions ++ rows) ∧
    ((∃ d ∈ data, hasAllRequired d = false) →
      isValidationError (DbMgr.bulk_insert_exhibitions db data now) ∧
      runDB (DbMgr.bulk_insert_exhibitions db data now) db = db) := by
  intro db data now
  constructor
  · intro hall
    cases data with
    | nil => exact ⟨[], db, rfl, rfl, by simp⟩
    | cons d rest =>
      obtain ⟨rows, hrows, hids⟩ :=
        buildExhibitions_ok now (d :: rest) db.next_exhibition_id hall
      exact ⟨rows,
        { db with exhibitions := db.exhibitions ++ rows,
                  next_exhibition_id := db.next_exhibition_id + rows.length },
        by simp only [DbMgr.bulk_insert_exhibitions, List.isEmpty_cons,
          Bool.false_eq_true, if_false, hrows], hids, rfl⟩
  · intro hbad
    have hne : data.isEmpty = false := by
      rcases hbad with ⟨x, hx, _⟩
      cases data with
      | nil => simp at hx
      | cons => rfl
    obtain ⟨m, hm⟩ := buildExhibitions_error now data db.next_exhibition_id hbad
    refine ⟨⟨m, ?_⟩, ?_⟩ <;>
      simp only [DbMgr.bulk_insert_exhibitions, hne, Bool.false_eq_true, if_false, hm,
        runDB]

/-- Witness for C5: a two-record batch with all fields present succeeds with
ids 1 and 2; a batch whose second record lacks a venue fails and persists
nothing. -/
theorem c5_bulk_insert_all_or_nothing_witness :
    (∃ rows db1,
      DbMgr.bulk_insert_exhibitions emptyDB
        [⟨some "A", some ⟨2025, 1, 1⟩, some ⟨2025, 2, 1⟩, some "V1", some "L1", some 1, none, none⟩,
         ⟨some "B", some ⟨2025, 3, 1⟩, some ⟨2025, 4, 1⟩, some "V2", some "L2", some 1, none, none⟩]
        7 = .ok (rows, db1) ∧
      rows.map (fun r => r.id) = (List.range 2).map (fun k => emptyDB.next_exhibition_id + k) ∧
      db1.exhibitions = emptyDB.exhibitions ++ rows) ∧
    (isValidationError (DbMgr.bulk_insert_exhibitions emptyDB
        [⟨some "A", some ⟨2025, 1, 1⟩, some ⟨2025, 2, 1⟩, some "V1", some "L1", some 1, none, none⟩,
         ⟨some "B", some ⟨2025, 3, 1⟩, some ⟨2025, 4, 1⟩, none, some "L2", some 1, none, none⟩]
        7) ∧
      runDB (DbMgr.bulk_insert_exhibitions emptyDB
        [⟨some "A", some ⟨2025, 1, 1⟩, some ⟨2025, 2, 1⟩, some "V1", some "L1", some 1, none, none⟩,
         ⟨some "B", some ⟨2025, 3, 1⟩, some ⟨2025, 4, 1⟩, none, some "L2", some 1, none, none⟩]
        7) emptyDB = emptyDB) :=
  ⟨(c5_bulk_insert_all_or_nothing emptyDB
      [⟨some "A", some ⟨2025, 1, 1⟩, some ⟨2025, 2, 1⟩, some "V1", some "L1", some 1, none, none⟩,
       ⟨some "B", some ⟨2025, 3, 1⟩, some ⟨2025, 4, 1⟩, some "V2", some "L2", some 1, none, none⟩]
      7).1 (by decide),
   (c5_bulk_insert_all_or_nothing emptyDB
      [⟨some "A", some ⟨2025, 1, 1⟩, some ⟨2025, 2, 1⟩, some "V1", some "L1", some 1, none, none⟩,
       ⟨some "B", some ⟨2025, 3, 1⟩, some ⟨2025, 4, 1⟩, none, some "L2", some 1, none, none⟩]
      7).2 (by decide)⟩

/-- String append acts as list append on the underlying characters. -/
theorem data_append_eq (s t : String) : (s ++ t).data = s.data ++ t.data := by
  cases s; cases t; rfl

/-- A string with a nonempty left part of an append is nonempty. -/
theorem append_ne_empty_of_left_ne (s t : String) (hs : s ≠ "") : s ++ t ≠ "" := by
  intro h
  apply hs
  have hd := congrArg String.data h
  rw [data_append_eq] at hd
  have h1 := (List.append_eq_nil.mp hd).1
  cases s
  simp only at h1
  simp [h1]

/-- The processed content always begins with its fixed header, so it is never
the empty string: a second call on the same body always finds nonempty cached
content. -/
theorem processedContent_ne_empty (body : String) : processedContent body ≠ "" := by
  simp only [processedContent]
  apply append_ne_empty_of_left_ne
  apply append_ne_empty_of_left_ne
  apply append_ne_empty_of_left_ne
  apply append_ne_empty_of_left_ne
  apply append_ne_empty_of_left_ne
  apply append_ne_empty_of_left_ne
  decide

/-- A haystack that starts with the needle contains it. -/
theorem containsSub_of_startsWith (n h : List Char) (hs : listStartsWith n h = true) :
    containsSub n h = true := by
  unfold containsSub
  rw [List.any_eq_true]
  exact ⟨h, by simp [List.mem_tails], hs⟩

/-- The hit message of the cache tool starts with the marker the caller greps
for. -/
theorem cacheHit_msg_startsWith (t : String) :
    listStartsWith "Cache hit".data
      ("Cache hit: Retrieved content for hash " ++ t ++ "...").data = true := by
  have hsplit : "Cache hit: Retrieved content for hash ".data =
      "Cache hit".data ++ ": Retrieved content for hash ".data := by decide
  unfold listStartsWith
  rw [data_append_eq, data_append_eq, hsplit, List.append_assoc, List.append_assoc,
    List.take_left]
  simp

/-- A body whose hash is not in the cache is processed afresh and the result
is stored under the hash. -/
theorem preprocess_miss (cache : Cache) (body : String)
    (h : cacheGet cache (md5_hex body) = none) :
    preprocess_content_for_extraction cache body =
      (processedContent body, cacheSet cache (md5_hex body) (processedContent body)) := by
  simp only [preprocess_content_for_extraction, cache_similar_content_patterns, h,
    Option.getD_none]
  have hempty : (("" : String) == "") = true := by decide
  rw [hempty]
  simp only [if_true, ite_self]
  simp only [processAndCache, cache_similar_content_patterns]

/-- A body whose hash is cached with nonempty content short-circuits: the
call returns the cached content behind the marker line and leaves the cache
unchanged. -/
theorem preprocess_hit (cache : Cache) (body r : String)
    (h : cacheGet cache (md5_hex body) = some r) (hr : r ≠ "") :
    preprocess_content_for_extraction cache body = ("[CACHED CONTENT]\n" ++ r, cache) := by
  simp only [preprocess_content_for_extraction, cache_similar_content_patterns, h,
    Option.getD_some]
  rw [if_pos (containsSub_of_startsWith _ _ (cacheHit_msg_startsWith _)),
    if_neg (by simp [hr])]

/-- Claim C6 (amended): the reducer keys its in-memory cache by a content hash
of the raw body; a call whose hash is absent processes the body and stores the
result, after which a byte-identical body short-circuits, returning the cached
reduced result behind a `[CACHED CONTENT]` marker line (not byte-for-byte
unchanged), while a non-identical body is processed afresh. -/
theorem c6_cache_hit_marker :
    ∀ (cache : Cache) (body : String),
    (cacheGet cache (md5_hex body) = none →
      preprocess_content_for_extraction cache body =
        (processedContent body, cacheSet cache (md5_hex body) (processedContent body)) ∧
      preprocess_content_for_extraction
          (cacheSet cache (md5_hex body) (processedContent body)) body =
        ("[CACHED CONTENT]\n" ++ processedContent body,
          cacheSet cache (md5_hex body) (processedContent body))) ∧
    (∀ r, cacheGet cache (md5_hex body) = some r → r ≠ "" →
      preprocess_content_for_extraction cache body = ("[CACHED CONTENT]\n" ++ r, cache)) ∧
    (∀ b2, b2 ≠ body → cacheGet cache (md5_hex b2) = none →
      (preprocess_content_for_extraction
          (cacheSet cache (md5_hex body) (processedContent body)) b2).1 =
        processedContent b2) := by
  intro cache body
  refine ⟨?_, ?_, ?_⟩
  · intro h
    refine ⟨preprocess_miss cache body h, ?_⟩
    refine preprocess_hit _ _ _ ?_ (processedContent_ne_empty body)
    simp [cacheGet, cacheSet]
  · intro r h hr
    exact preprocess_hit cache body r h hr
  · intro b2 hne h2
    have hkey : cacheGet (cacheSet cache (md5_hex body) (processedContent body))
        (md5_hex b2) = cacheGet cache (md5_hex b2) := by
      simp [cacheGet, cacheSet, md5_hex, beq_eq_false_iff_ne.mpr (Ne.symm hne)]
    rw [preprocess_miss _ _ (hkey.trans h2)]

/-- Witness for C6: a fresh cache and the body "hi"; the first call stores the
processed content and the second returns it behind the marker. -/
theorem c6_cache_hit_marker_witness :
    preprocess_content_for_extraction [] "hi" =
      (processedContent "hi", cacheSet [] (md5_hex "hi") (processedContent "hi")) ∧
    preprocess_content_for_extraction (cacheSet [] (md5_hex "hi") (processedContent "hi")) "hi" =
      ("[CACHED CONTENT]\n" ++ processedContent "hi",
        cacheSet [] (md5_hex "hi") (processedContent "hi")) :=
  (c6_cache_hit_marker [] "hi").1 rfl

/-- Counterexample for C6 as stated: after processing "hi" once, the stored
reduction equals the first call's result, but the second call's return value
differs from it (it carries the marker line), so the cached reduced result is
not returned unchanged. -/
theorem c6_cache_counterexample :
    cacheGet (preprocess_content_for_extraction [] "hi").2 (md5_hex "hi") =
      some (preprocess_content_for_extraction [] "hi").1 ∧
    (preprocess_content_for_extraction
        (preprocess_content_for_extraction [] "hi").2 "hi").1 ≠
      (preprocess_content_for_extraction [] "hi").1 := by
  constructor
  · decide
  · decide

end ArtEvents
